import Mathlib

/-!
Verification of the `vulkan-playground` repository against its
natural-language specification.

The development shallowly embeds the repository's own logic:
* `src/vk_util/vec.rs` — the `UVec2` dimension value and its conversion to
  the platform extent type `Dimensions`;
* `src/vk_util/interface.rs` — the `Interface` wrapper: physical-device
  selection, queue creation, and the CPU-accessible buffer factory;
* `src/bin/triangle/main.rs` — the triangle render loop, modelled as a step
  function over the loop's mutable state, with the platform's responses
  (swapchain recreation, image acquisition, flush) supplied as inputs;
* `src/bin/mandelbrot/main.rs` — the escape-time loop of the embedded
  compute shader, over exact rational arithmetic.

Machine integers (`u32`, `usize`) are modelled as `Nat`; none of the embedded
operations perform arithmetic that could overflow, so no reduction modulo
`2 ^ 32` is needed.  Fallible operations (`unwrap`, `expect`) are modelled
with `Option`: `none` is the process-fatal panic path.
-/

namespace VkUtil

/-- From `src/vk_util/vec.rs`: `pub struct UVec2(u32, u32)` —
an immutable pair of unsigned 32-bit extents. -/
structure UVec2 where
  fst : Nat
  snd : Nat
deriving DecidableEq, Repr

/-- The platform image-extent type `vulkano::image::Dimensions`
(the enum's variants and their fields, as used by the repository). -/
inductive Dimensions where
  | Dim1d (width : Nat)
  | Dim1dArray (width : Nat) (array_layers : Nat)
  | Dim2d (width : Nat) (height : Nat)
  | Dim2dArray (width : Nat) (height : Nat) (array_layers : Nat)
  | Dim3d (width : Nat) (height : Nat) (depth : Nat)
deriving DecidableEq, Repr

/-- `impl From<(u32, u32)> for UVec2` — `Self(v.0, v.1)`. -/
def UVec2.from_tuple (v : Nat × Nat) : UVec2 :=
  ⟨v.1, v.2⟩

/-- `impl Into<Dimensions> for UVec2` —
`Dimensions::Dim2d { width: self.0, height: self.1 }`. -/
def UVec2.into_dimensions (s : UVec2) : Dimensions :=
  .Dim2d s.fst s.snd

/-- Modelled from the spec: the conversion back from the platform
image-extent type ("convertible to/from a platform image-extent type").
The repository itself only implements the forward direction; the backward
direction reads the `width`/`height` fields of the two-dimensional variant,
the only variant that corresponds to a `UVec2`. -/
def UVec2.from_dimensions : Dimensions → Option UVec2
  | .Dim2d w h => some ⟨w, h⟩
  | _ => none

/-- `QueueFamily` as the repository consumes it: only
`supports_graphics()` is consulted. -/
structure QueueFamily where
  supports_graphics : Bool
deriving DecidableEq, Repr

/-- `PhysicalDevice` as the repository consumes it:
`name()`, `ty()` (its debug rendering) and `queue_families()`. -/
structure PhysicalDevice where
  name : String
  ty : String
  queue_families : List QueueFamily
deriving DecidableEq, Repr

/-- The single queue created by `Device::new`: its family and the
requested priority. -/
structure Queue where
  family : QueueFamily
  priority : ℚ
deriving DecidableEq, Repr

/-- `pub struct Interface { device, queue, info }`.  The logical device is
identified by the physical device it was built on. -/
structure Interface where
  device : PhysicalDevice
  queue : Queue
  info : String
deriving DecidableEq, Repr

/-- `Interface::init_physical`:
`PhysicalDevice::enumerate(instance).next().expect("no vulkan device available")`.
The enumeration order is the input list; `next()` takes its head and the
`expect` panics when the enumeration is empty. -/
def Interface.init_physical (devices : List PhysicalDevice) : Option PhysicalDevice :=
  devices.head?

/-- `Interface::init_device_queue`:
`physical.queue_families().find(|&q| q.supports_graphics()).unwrap()`, then
`Device::new(physical, …, [(queue_family, 0.5)].iter().cloned())` and
`queues.next().unwrap()` — a single queue at priority 0.5 on the first
graphics-capable family, panicking when the device has none. -/
def Interface.init_device_queue (physical : PhysicalDevice) :
    Option (PhysicalDevice × Queue) :=
  match physical.queue_families.find? (fun q => q.supports_graphics) with
  | none => none
  | some qf => some (physical, ⟨qf, 1 / 2⟩)

/-- `Interface::new_compute`: instance creation (no observable state here),
then `init_physical`, the `info` string `format!("{} ({:?})", name, ty)`,
then `init_device_queue`.  `none` is the process-fatal panic path. -/
def Interface.new_compute (devices : List PhysicalDevice) : Option Interface :=
  match Interface.init_physical devices with
  | none => none
  | some physical =>
    let info := physical.name ++ " (" ++ physical.ty ++ ")"
    match Interface.init_device_queue physical with
    | none => none
    | some (device, queue) => some ⟨device, queue, info⟩

/-- Modelled from the spec: `CpuAccessibleBuffer::from_iter(device, usage,
false, data).unwrap()` — the platform allocation underlying
`cpu_accessible_buffer_from`.  The allocation stores exactly the supplied
bytes; a zero-size (empty) allocation fails with a platform-defined error
(the spec's "fails fatally on allocation error", the same downstream
zero-extent failure it describes for dimensions), which the `unwrap` turns
into a panic (`none`). -/
def cpuAccessibleBufferFromIter (data : List Nat) : Option (List Nat) :=
  if data.isEmpty then none else some data

/-- `Interface::cpu_accessible_buffer_from(data)` — delegates to the
platform allocation and unwraps. -/
def Interface.cpu_accessible_buffer_from (data : List Nat) : Option (List Nat) :=
  cpuAccessibleBufferFromIter data

/-- `Interface::cpu_accessible_buffer(size)` —
`self.cpu_accessible_buffer_from((0..size).map(|_| 0u8))`. -/
def Interface.cpu_accessible_buffer (size : Nat) : Option (List Nat) :=
  Interface.cpu_accessible_buffer_from ((List.range size).map (fun _ => 0))

end VkUtil

namespace Triangle

/-! Model of the render loop of `src/bin/triangle/main.rs`.

The loop's mutable state is `LoopState`; one `RedrawEventsCleared` tick is
the step function `redraw_tick`.  The platform's responses during a tick —
the result of `swapchain.recreate_with_dimensions`, of
`swapchain::acquire_next_image`, of command-buffer building, and of
`then_signal_fence_and_flush` — are delegated to the graphics library, so a
tick is parameterised over them (`TickInput`).  Swapchain objects and
framebuffer sets are identified by `Nat` tags: a recreation yields fresh
tags, and equality of tags is object identity. -/

/-- A `GpuFuture` value as chained by the loop:
`sync::now(device)`, `join`, the acquisition signal carried by
`acquire_future`, `then_execute(queue, command_buffer)`,
`then_swapchain_present(queue, swapchain, image_num)`, and
`then_signal_fence_and_flush`. -/
inductive Future where
  | now
  | acquireSignal (image_num : Nat)
  | join (a b : Future)
  | execute (prev : Future) (fb_set : Nat) (image_num : Nat)
  | present (prev : Future) (swapchain : Nat) (image_num : Nat)
  | fenceFlush (prev : Future)
deriving DecidableEq, Repr

/-- All futures a future is chained after (its strict ancestors in the
chaining structure): work represented by `f` begins only after every
member of `f.ancestors` has completed. -/
def Future.ancestors : Future → List Future
  | .now => []
  | .acquireSignal _ => []
  | .join a b => a :: b :: (a.ancestors ++ b.ancestors)
  | .execute prev _ _ => prev :: prev.ancestors
  | .present prev _ _ => prev :: prev.ancestors
  | .fenceFlush prev => prev :: prev.ancestors

/-- Result of `swapchain.recreate_with_dimensions(dimensions)`:
`Ok((new_swapchain, new_images))`, `Err(UnsupportedDimensions)`, or any
other error (which the loop `panic!`s on). -/
inductive RecreateResult where
  | ok (new_swapchain : Nat) (new_images : Nat)
  | unsupportedDimensions
  | otherError
deriving DecidableEq, Repr

/-- Result of `swapchain::acquire_next_image(swapchain, None)`:
`Ok((image_num, suboptimal, acquire_future))`, `Err(OutOfDate)`, or any
other error (which the loop `panic!`s on). -/
inductive AcquireResult where
  | ok (image_num : Nat) (suboptimal : Bool)
  | outOfDate
  | otherError
deriving DecidableEq, Repr

/-- Result of `then_signal_fence_and_flush()`:
`Ok(future)`, `Err(FlushError::OutOfDate)`, or any other error. -/
inductive FlushResult where
  | ok
  | outOfDate
  | otherError
deriving DecidableEq, Repr

/-- The platform's responses consumed by one redraw tick. -/
structure TickInput where
  /-- `surface.window().inner_size()`, read when recreating. -/
  dimensions : Nat × Nat
  recreate : RecreateResult
  acquire : AcquireResult
  /-- Whether command-buffer building (`primary_one_time_submit`,
  `begin_render_pass`, `draw`, `end_render_pass`, `build`, `then_execute`)
  succeeds; each of those is unwrapped, so failure is a panic. -/
  build_ok : Bool
  flush : FlushResult
deriving DecidableEq, Repr

/-- The loop's mutable state: `recreate_swapchain`, `previous_frame_end`,
and the identities of the current `swapchain` and `framebuffers`. -/
structure LoopState where
  recreate_swapchain : Bool
  previous_frame_end : Option Future
  swapchain : Nat
  framebuffers : Nat
deriving DecidableEq, Repr

/-- The state before the first tick: `recreate_swapchain = false`,
`previous_frame_end = Some(sync::now(device).boxed())`, and the swapchain
and framebuffers built during initialization (tag 0). -/
def initial_loop_state : LoopState :=
  { recreate_swapchain := false
    previous_frame_end := some .now
    swapchain := 0
    framebuffers := 0 }

/-- The distinct `unwrap`/`panic!` sites a tick can die at. -/
inductive PanicSite where
  /-- `previous_frame_end.as_mut().unwrap()` or
  `previous_frame_end.take().unwrap()`. -/
  | prevFrameUnwrap
  /-- `panic!("Failed to recreate swapchain: …")`. -/
  | recreateSwapchain
  /-- `panic!("Failed to acquire next image: …")`. -/
  | acquireImage
  /-- An unwrapped command-buffer building step. -/
  | commandBuffer
deriving DecidableEq, Repr

/-- How a tick ended: a panic (process-fatal), an early `return` skipping
the frame, or a completed run through the flush match. -/
inductive TickOutcome where
  | panicked (site : PanicSite)
  | skipped
  | completed
deriving DecidableEq, Repr

/-- Observables of one tick: its outcome, whether
`println!("Failed to flush future: …")` ran, and the chained future that
was submitted (when the tick reached submission). -/
structure TickResult where
  outcome : TickOutcome
  logged : Bool
  submitted : Option Future
deriving DecidableEq, Repr

/-- The tick from the acquire call onward (`main.rs` lines 255–337),
after the recreate-if-stale branch has run. -/
def redraw_tick_acquire (s : LoopState) (inp : TickInput) : TickResult × LoopState :=
  match inp.acquire with
  | .outOfDate =>
    -- `recreate_swapchain = true; return;`
    (⟨.skipped, false, none⟩, { s with recreate_swapchain := true })
  | .otherError =>
    (⟨.panicked .acquireImage, false, none⟩, s)
  | .ok image_num suboptimal =>
    -- `if suboptimal { recreate_swapchain = true; }` — and the frame goes on.
    let s := if suboptimal then { s with recreate_swapchain := true } else s
    if inp.build_ok then
      match s.previous_frame_end with
      | none =>
        -- `previous_frame_end.take().unwrap()`
        (⟨.panicked .prevFrameUnwrap, false, none⟩, s)
      | some prev =>
        let fut : Future :=
          .fenceFlush (.present (.execute (.join prev (.acquireSignal image_num))
            s.framebuffers image_num) s.swapchain image_num)
        match inp.flush with
        | .ok =>
          (⟨.completed, false, some fut⟩,
            { s with previous_frame_end := some fut })
        | .outOfDate =>
          (⟨.completed, false, some fut⟩,
            { s with recreate_swapchain := true, previous_frame_end := some .now })
        | .otherError =>
          -- `println!("Failed to flush future: {:?}", e);`
          (⟨.completed, true, some fut⟩,
            { s with previous_frame_end := some .now })
    else
      (⟨.panicked .commandBuffer, false, none⟩, s)

/-- One `RedrawEventsCleared` tick (`main.rs` lines 221–338). -/
def redraw_tick (s : LoopState) (inp : TickInput) : TickResult × LoopState :=
  match s.previous_frame_end with
  | none =>
    -- `previous_frame_end.as_mut().unwrap().cleanup_finished()`
    (⟨.panicked .prevFrameUnwrap, false, none⟩, s)
  | some _ =>
    if s.recreate_swapchain then
      match inp.recreate with
      | .unsupportedDimensions =>
        -- transient, expected while resizing: `return`, state untouched
        (⟨.skipped, false, none⟩, s)
      | .otherError =>
        (⟨.panicked .recreateSwapchain, false, none⟩, s)
      | .ok new_swapchain new_images =>
        redraw_tick_acquire
          { s with
            swapchain := new_swapchain
            framebuffers := new_images
            recreate_swapchain := false } inp
    else
      redraw_tick_acquire s inp

/-- `WindowEvent::Resized(_)` — `recreate_swapchain = true;`. -/
def handle_resize (s : LoopState) : LoopState :=
  { s with recreate_swapchain := true }

/-- A concrete loop state used to instantiate the loop theorems:
the swapchain is stale and the previous frame's future is trivial. -/
def sample_stale_state : LoopState :=
  { recreate_swapchain := true
    previous_frame_end := some .now
    swapchain := 3
    framebuffers := 4 }

/-- A concrete tick input whose platform responses all succeed. -/
def sample_ok_input : TickInput :=
  { dimensions := (800, 600)
    recreate := .ok 5 6
    acquire := .ok 1 false
    build_ok := true
    flush := .ok }

end Triangle

namespace Mandelbrot

/-! Model of the compute shader embedded in `src/bin/mandelbrot/main.rs`
(the GLSL source inside the `cs` module).  The shader runs in 32-bit
floats; the two data paths are embedded at different precision, matching
what the platform actually pins down:

* The loop counter (`i = 0.0`, `i += 0.005`, `i < 1.0`) uses only f32
  addition — which Vulkan requires to be correctly rounded
  (round-to-nearest-even) — and a comparison against the exactly
  representable `1.0`.  This path is embedded bit-exactly: every counter
  value is a dyadic rational carried as its numerator over `2 ^ 31`
  (`i = a / 2 ^ 31`), and each `i += 0.005` step adds the exact f32 value
  of the literal `0.005` and re-rounds to a 24-bit significand.  The f32
  literal `0.005` is not `1/200`: it is `10737418 / 2 ^ 31 ≈ 0.0049999999`,
  which is why the `i < 1.0` test still succeeds after 200 increments and
  non-escaping pixels run a 201st iteration.

* The z recurrence and the escape test are embedded over exact rationals:
  Vulkan does not require `length` (a square root) to be correctly
  rounded, so the z path is an exact-arithmetic idealization, with
  `length(z) > 4.0` encoded square-root-free as `len_sq z > 16`
  (equivalent over the reals since both sides of the original comparison
  are nonnegative). -/

/-- One step of the recurrence, from the loop body:
`z = vec2(z.x * z.x - z.y * z.y + c.x, z.y * z.x + z.x * z.y + c.y)` —
the complex map z ← z² + c. -/
def mandel_step (c z : ℚ × ℚ) : ℚ × ℚ :=
  (z.1 * z.1 - z.2 * z.2 + c.1, z.2 * z.1 + z.1 * z.2 + c.2)

/-- The squared euclidean norm: `length(z) > 4.0` is `len_sq z > 16`. -/
def len_sq (z : ℚ × ℚ) : ℚ :=
  z.1 * z.1 + z.2 * z.2

/-- The orbit of the recurrence: `orbit c n` is z after `n` loop-body
steps starting from `z = vec2(0.0, 0.0)`. -/
def orbit (c : ℚ × ℚ) : Nat → ℚ × ℚ
  | 0 => (0, 0)
  | n + 1 => mandel_step c (orbit c n)

/-- The numerator over `2 ^ 31` of the f32 value of the source literal
`0.005`: the IEEE-754 binary32 number nearest to 1/200 is
`10737418 × 2⁻³¹ = 0.004999999888…` (see `c005_f32_correct`). -/
def c005_f32 : Nat := 10737418

/-- Round-to-nearest, ties to even, onto a 24-bit significand — IEEE-754
binary32 rounding, on numerators over the fixed denominator `2 ^ 31`
(the exponent granularity is implicit in how many bits the numerator
has).  Values with at most 24 significant bits are exact; otherwise the
excess low bits are rounded away, halves going to the even neighbour.
The 16-entry scan bounds the excess at 15 bits, covering every value below
`2 ^ 39 / 2 ^ 31 = 256` — far above the magnitudes this loop's counter
reaches (below 1.01). -/
def f32_round (a : Nat) : Nat :=
  let s := (List.range 16).findIdx (fun t => a < 2 ^ (24 + t))
  if s = 0 then a
  else
    let q := a / 2 ^ s
    let r := a % 2 ^ s
    let half := 2 ^ (s - 1)
    if r < half then q * 2 ^ s
    else if half < r then (q + 1) * 2 ^ s
    else if q % 2 = 0 then q * 2 ^ s
    else (q + 1) * 2 ^ s

/-- One `i += 0.005` increment: the exact sum (both addends are multiples
of `2 ⁻³¹`) rounded back to f32, per Vulkan's correctly-rounded `OpFAdd`. -/
def f32_add_step (a : Nat) : Nat :=
  f32_round (a + c005_f32)

/-- The exact f32 counter: `counter_f32 n` is the numerator over `2 ^ 31`
of the loop counter `i` after `n` increments (`counter_f32 0 = 0` is
`i = 0.0`). -/
def counter_f32 : Nat → Nat
  | 0 => 0
  | n + 1 => f32_add_step (counter_f32 n)

/-- The shader's loop
`for (i = 0.0; i < 1.0; i += 0.005) { z = …; if (length(z) > 4.0) break; }`,
returning the final value of `i` (as the exact rational `a / 2 ^ 31`)
together with the number of body iterations executed.  The counter is the
numerator `a`; the test `i < 1.0` compares two exactly representable f32
values and is `a < 2 ^ 31`.  The recursion is driven by a fuel argument;
the fuel clause returns the same `(i, 0)` as the loop's normal exit, and
from the entry point (fuel 201) the two coincide: the counter is at least
`1.0` after 201 increments (`counter_f32_bounds`), so when the fuel runs
out the `i < 1.0` test would fail as well. -/
def mandel_loop (c : ℚ × ℚ) : ℚ × ℚ → Nat → Nat → ℚ × Nat
  | _, a, 0 => ((a : ℚ) / 2 ^ 31, 0)
  | z, a, fuel + 1 =>
    if a < 2 ^ 31 then
      let z' := mandel_step c z
      if 16 < len_sq z' then ((a : ℚ) / 2 ^ 31, 1)
      else
        let r := mandel_loop c z' (f32_add_step a) fuel
        (r.1, r.2 + 1)
    else ((a : ℚ) / 2 ^ 31, 0)

/-- The loop as run by the shader: `z = vec2(0.0, 0.0)`, `i = 0.0`
(counter numerator 0).  Fuel 201 suffices: the f32 counter reaches `1.0`
only after the 201st increment (`counter_f32_bounds`), at which point the
loop exits anyway. -/
def mandel_shader_loop (c : ℚ × ℚ) : ℚ × Nat :=
  mandel_loop c (0, 0) 0 201

/-- The value of `i` the shader writes for parameter `c`. -/
def mandel_i (c : ℚ × ℚ) : ℚ :=
  (mandel_shader_loop c).1

/-- The number of loop-body iterations the shader performs for `c`. -/
def mandel_count (c : ℚ × ℚ) : Nat :=
  (mandel_shader_loop c).2

/-- A `vec4` color value. -/
structure Vec4 where
  r : ℚ
  g : ℚ
  b : ℚ
  a : ℚ
deriving DecidableEq, Repr

/-- `vec2 norm_coordinates = (gl_GlobalInvocationID.xy + vec2(0.5)) /
vec2(imageSize(img));`. -/
def norm_coordinates (gid size : ℚ × ℚ) : ℚ × ℚ :=
  ((gid.1 + 0.5) / size.1, (gid.2 + 0.5) / size.2)

/-- `vec2 c = (norm_coordinates - vec2(0.5)) * 2.0 - vec2(1.0, 0.0);`. -/
def pixel_c (gid size : ℚ × ℚ) : ℚ × ℚ :=
  (((norm_coordinates gid size).1 - 0.5) * 2 - 1,
   ((norm_coordinates gid size).2 - 0.5) * 2 - 0)

/-- The color the shader stores for the invocation `gid` on an image of
size `size`: `vec4 to_write = vec4(vec3(i), 1.0);`. -/
def shader_main (gid size : ℚ × ℚ) : Vec4 :=
  let i := mandel_i (pixel_c gid size)
  ⟨i, i, i, 1⟩

/-- The c parameter of output pixel (1023, 511) of the 1024×1024 dispatch:
`(-1/1024, -1/1024)`, the attainable pixel parameter closest to the
origin.  Its orbit stays inside the disk of squared radius 1/100
(`orbit_sample_pixel_bounded`), so this pixel never escapes; every
intermediate value in its pixel-coordinate computation is exactly
representable in f32 (all are dyadic with few significant bits), so the
real shader computes the same c. -/
def sample_pixel_c : ℚ × ℚ :=
  (-(1 / 1024), -(1 / 1024))

end Mandelbrot

/-!
Claim theorems.
-/

/-- C1: for every pair (w, h) of unsigned 32-bit integers with w > 0 and
h > 0, converting the `UVec2(w, h)` dimension value to the platform
image-extent type (`Dimensions::Dim2d`) and back yields (w, h) unchanged;
the conversion is lossless in both directions. -/
theorem C1_uvec2_conversion_lossless (w h : Nat) (hw : 0 < w) (hh : 0 < h)
    (hw32 : w < 2 ^ 32) (hh32 : h < 2 ^ 32) :
    VkUtil.UVec2.from_dimensions
        ((VkUtil.UVec2.from_tuple (w, h)).into_dimensions)
      = some (VkUtil.UVec2.from_tuple (w, h)) ∧
    ∀ u : VkUtil.UVec2,
      VkUtil.UVec2.from_dimensions (.Dim2d w h) = some u →
        u.into_dimensions = .Dim2d w h := by
  refine ⟨rfl, ?_⟩
  intro u hu
  simp only [VkUtil.UVec2.from_dimensions, Option.some.injEq] at hu
  subst hu
  rfl

/-- Witness for C1 at (w, h) = (1024, 768). -/
theorem C1_uvec2_conversion_lossless_witness :
    VkUtil.UVec2.from_dimensions
        ((VkUtil.UVec2.from_tuple (1024, 768)).into_dimensions)
      = some (VkUtil.UVec2.from_tuple (1024, 768)) :=
  (C1_uvec2_conversion_lossless 1024 768 (by norm_num) (by norm_num)
    (by norm_num) (by norm_num)).1

/-- C2, counterexample: at size 0 the buffer factory reaches the fatal
allocation-failure path instead of producing a readable content of length
0, so the claim does not hold for every size n. -/
theorem C2_cpu_accessible_buffer_zero_counterexample :
    VkUtil.Interface.cpu_accessible_buffer 0 = none := rfl

/-- C2, amended: for every size n > 0, `Interface::cpu_accessible_buffer(n)`
produces a buffer whose readable content has length exactly n and every
byte equal to zero immediately after creation. -/
theorem C2_cpu_accessible_buffer_zeroed (n : Nat) (hn : 0 < n) :
    ∃ l, VkUtil.Interface.cpu_accessible_buffer n = some l ∧
      l.length = n ∧ ∀ b ∈ l, b = 0 := by
  refine ⟨(List.range n).map (fun _ => 0), ?_, by simp, by simp⟩
  unfold VkUtil.Interface.cpu_accessible_buffer
    VkUtil.Interface.cpu_accessible_buffer_from VkUtil.cpuAccessibleBufferFromIter
  rw [if_neg]
  simp [List.isEmpty_iff, List.range_eq_nil]
  omega

/-- Witness for C2 at n = 3. -/
theorem C2_cpu_accessible_buffer_zeroed_witness :
    ∃ l, VkUtil.Interface.cpu_accessible_buffer 3 = some l ∧
      l.length = 3 ∧ ∀ b ∈ l, b = 0 :=
  C2_cpu_accessible_buffer_zeroed 3 (by norm_num)

/-- C9: `Interface::cpu_accessible_buffer(0)` reaches the fatal error path
(the unwrap of the underlying allocation, which fails for an empty byte
sequence); the length-n/all-zero postcondition holds exactly under the
precondition n > 0. -/
theorem C9_cpu_accessible_buffer_zero_fatal :
    VkUtil.Interface.cpu_accessible_buffer 0 = none ∧
    ∀ n l, VkUtil.Interface.cpu_accessible_buffer n = some l →
      0 < n ∧ l.length = n ∧ ∀ b ∈ l, b = 0 := by
  refine ⟨rfl, ?_⟩
  intro n l h
  match n with
  | 0 => exact absurd h (by simp [VkUtil.Interface.cpu_accessible_buffer,
      VkUtil.Interface.cpu_accessible_buffer_from, VkUtil.cpuAccessibleBufferFromIter])
  | n + 1 =>
    refine ⟨Nat.succ_pos n, ?_⟩
    unfold VkUtil.Interface.cpu_accessible_buffer
      VkUtil.Interface.cpu_accessible_buffer_from VkUtil.cpuAccessibleBufferFromIter at h
    rw [if_neg (by simp [List.isEmpty_iff, List.range_eq_nil])] at h
    cases h
    simp

/-- Witness for C9 at n = 3, l = [0, 0, 0]. -/
theorem C9_cpu_accessible_buffer_zero_fatal_witness :
    0 < 3 ∧ ([0, 0, 0] : List Nat).length = 3 ∧ ∀ b ∈ ([0, 0, 0] : List Nat), b = 0 :=
  C9_cpu_accessible_buffer_zero_fatal.2 3 [0, 0, 0] (by rfl)

/-- C3, counterexample: with two enumerated devices where only the second
exposes a graphics-capable queue family, `new_compute` fails (it takes the
head of the enumeration unconditionally), although a device with a
suitable queue family exists — contradicting "selects the first one that
exposes a graphics-capable queue family" and "fails exactly when no device
exists or no suitable queue family exists". -/
theorem C3_new_compute_counterexample :
    VkUtil.Interface.new_compute
        [⟨"igpu", "IntegratedGpu", [⟨false⟩]⟩,
         ⟨"dgpu", "DiscreteGpu", [⟨true⟩]⟩] = none ∧
    ∃ d ∈ [(⟨"igpu", "IntegratedGpu", [⟨false⟩]⟩ : VkUtil.PhysicalDevice),
           ⟨"dgpu", "DiscreteGpu", [⟨true⟩]⟩],
      ∃ q ∈ d.queue_families, q.supports_graphics = true := by
  refine ⟨rfl, ⟨"dgpu", "DiscreteGpu", [⟨true⟩]⟩, by simp, ⟨true⟩, by simp, rfl⟩

/-- C3, amended: `new_compute` selects the first enumerated physical
device unconditionally, then the first graphics-capable queue family on
that device, creating a logical device and a single queue at priority 0.5;
it fails process-fatally, with no fallback or retry, exactly when no
device exists or the first enumerated device has no graphics-capable
queue family. -/
theorem C3_new_compute_selects_head_device (devices : List VkUtil.PhysicalDevice) :
    (VkUtil.Interface.new_compute devices = none ↔
      devices.head? = none ∨
        ∃ d, devices.head? = some d ∧
          ∀ q ∈ d.queue_families, q.supports_graphics = false) ∧
    ∀ i, VkUtil.Interface.new_compute devices = some i →
      devices.head? = some i.device ∧
      i.device.queue_families.find? (fun q => q.supports_graphics)
        = some i.queue.family ∧
      i.queue.priority = 1 / 2 ∧
      i.info = i.device.name ++ " (" ++ i.device.ty ++ ")" := by
  cases devices with
  | nil =>
    refine ⟨by simp [VkUtil.Interface.new_compute, VkUtil.Interface.init_physical], ?_⟩
    intro i hi
    simp [VkUtil.Interface.new_compute, VkUtil.Interface.init_physical] at hi
  | cons d rest =>
    simp only [VkUtil.Interface.new_compute, VkUtil.Interface.init_physical,
      VkUtil.Interface.init_device_queue, List.head?_cons]
    cases hf : d.queue_families.find? (fun q => q.supports_graphics) with
    | none =>
      refine ⟨?_, ?_⟩
      · simp only [iff_true_intro rfl, true_iff]
        refine Or.inr ⟨d, rfl, ?_⟩
        intro q hq
        have := List.find?_eq_none.mp hf q hq
        simpa using this
      · intro i hi
        simp at hi
    | some qf =>
      refine ⟨?_, ?_⟩
      · simp only [reduceCtorEq, false_iff]
        rintro (h | ⟨d', hd', hall⟩)
        · exact absurd h (by simp)
        · have hd : d = d' := by simpa using hd'
          subst hd
          have h1 := List.find?_some hf
          have h2 := List.mem_of_find?_eq_some hf
          have := hall qf h2
          rw [this] at h1
          exact absurd h1 (by simp)
      · intro i hi
        simp only [Option.some.injEq] at hi
        subst hi
        exact ⟨rfl, hf, rfl, rfl⟩

/-- Witness for C3 at a single device whose second queue family is the
first graphics-capable one. -/
theorem C3_new_compute_selects_head_device_witness :
    ([(⟨"gpu0", "DiscreteGpu", [⟨false⟩, ⟨true⟩]⟩ : VkUtil.PhysicalDevice)].head?
        = some (VkUtil.PhysicalDevice.mk "gpu0" "DiscreteGpu" [⟨false⟩, ⟨true⟩])) ∧
    ((VkUtil.PhysicalDevice.mk "gpu0" "DiscreteGpu"
        [⟨false⟩, ⟨true⟩]).queue_families.find? (fun q => q.supports_graphics)
      = some ⟨true⟩) ∧
    ((1 : ℚ) / 2 = 1 / 2) ∧
    ("gpu0 (DiscreteGpu)" = "gpu0" ++ " (" ++ "DiscreteGpu" ++ ")") :=
  (C3_new_compute_selects_head_device
      [⟨"gpu0", "DiscreteGpu", [⟨false⟩, ⟨true⟩]⟩]).2
    ⟨⟨"gpu0", "DiscreteGpu", [⟨false⟩, ⟨true⟩]⟩, ⟨⟨true⟩, 1 / 2⟩,
      "gpu0" ++ " (" ++ "DiscreteGpu" ++ ")"⟩ rfl

open Triangle in
/-- Helper: the acquire-onwards part of a tick never changes which
swapchain object the state refers to. -/
theorem redraw_tick_acquire_swapchain_eq (s : LoopState) (inp : TickInput) :
    ((Triangle.redraw_tick_acquire s inp).2).swapchain = s.swapchain := by
  obtain ⟨rc, pfe, sc, fb⟩ := s
  obtain ⟨dims, rec, acq, bok, fl⟩ := inp
  cases acq with
  | outOfDate => rfl
  | otherError => rfl
  | ok n sub => cases sub <;> cases bok <;> cases pfe <;> try rfl
                all_goals cases fl <;> rfl

open Triangle in
/-- Helper: a tick whose result records a submitted future ran the
acquire-onwards part on a state with the same `previous_frame_end` as the
starting state. -/
theorem redraw_tick_submitted_via_acquire (s : LoopState) (inp : TickInput)
    (f : Future) (h : ((Triangle.redraw_tick s inp).1).submitted = some f) :
    ∃ s', Triangle.redraw_tick s inp = Triangle.redraw_tick_acquire s' inp ∧
      s'.previous_frame_end = s.previous_frame_end := by
  obtain ⟨rc, pfe, sc, fb⟩ := s
  cases pfe with
  | none => simp [Triangle.redraw_tick] at h
  | some prev =>
    cases rc with
    | false => exact ⟨⟨false, some prev, sc, fb⟩, rfl, rfl⟩
    | true =>
      cases hrec : inp.recreate with
      | unsupportedDimensions => simp [Triangle.redraw_tick, hrec] at h
      | otherError => simp [Triangle.redraw_tick, hrec] at h
      | ok nsc nimg =>
        exact ⟨⟨false, some prev, nsc, nimg⟩, by simp [Triangle.redraw_tick, hrec], rfl⟩

open Triangle in
/-- Helper: classification of the flush match, at the acquire-onwards
level: an out-of-date flush error sets the stale flag and resets the
future to `sync::now` without panicking or logging; any other flush error
logs, resets the future, and does not panic. -/
theorem redraw_tick_acquire_flush_classification (s : LoopState) (inp : TickInput)
    (f : Future) (h : ((Triangle.redraw_tick_acquire s inp).1).submitted = some f) :
    (inp.flush = .outOfDate →
      ((Triangle.redraw_tick_acquire s inp).1).outcome = .completed ∧
      ((Triangle.redraw_tick_acquire s inp).1).logged = false ∧
      ((Triangle.redraw_tick_acquire s inp).2).recreate_swapchain = true ∧
      ((Triangle.redraw_tick_acquire s inp).2).previous_frame_end = some .now) ∧
    (inp.flush = .otherError →
      ((Triangle.redraw_tick_acquire s inp).1).outcome = .completed ∧
      ((Triangle.redraw_tick_acquire s inp).1).logged = true ∧
      ((Triangle.redraw_tick_acquire s inp).2).previous_frame_end = some .now) := by
  obtain ⟨rc, pfe, sc, fb⟩ := s
  obtain ⟨dims, rec, acq, bok, fl⟩ := inp
  cases acq with
  | outOfDate => simp [Triangle.redraw_tick_acquire] at h
  | otherError => simp [Triangle.redraw_tick_acquire] at h
  | ok n sub =>
    cases sub <;> cases bok <;> cases pfe <;> cases fl <;>
      simp_all [Triangle.redraw_tick_acquire]

open Triangle in
/-- Helper: the shape of any future submitted by the acquire-onwards part:
it is the fence-and-flush of a present chained after an execution chained
after the join of the incoming previous frame future with the acquisition
signal of the acquired image. -/
theorem redraw_tick_acquire_submitted_shape (s : LoopState) (inp : TickInput)
    (f : Future) (h : ((Triangle.redraw_tick_acquire s inp).1).submitted = some f) :
    ∃ prev n sub,
      s.previous_frame_end = some prev ∧
      inp.acquire = .ok n sub ∧
      f = .fenceFlush (.present (.execute (.join prev (.acquireSignal n))
        s.framebuffers n) s.swapchain n) := by
  obtain ⟨rc, pfe, sc, fb⟩ := s
  obtain ⟨dims, rec, acq, bok, fl⟩ := inp
  cases acq with
  | outOfDate => simp [Triangle.redraw_tick_acquire] at h
  | otherError => simp [Triangle.redraw_tick_acquire] at h
  | ok n sub =>
    cases pfe with
    | none => cases sub <;> cases bok <;> simp_all [Triangle.redraw_tick_acquire]
    | some prev =>
      refine ⟨prev, n, sub, rfl, rfl, ?_⟩
      cases sub <;> cases bok <;> cases fl <;>
        simp_all [Triangle.redraw_tick_acquire]

open Triangle in
/-- C4: in the triangle render loop, when swapchain recreation fails with
the unsupported-dimensions error, the tick does not crash, skips the
frame, leaves the whole loop state (in particular the swapchain reference)
unmodified with the stale flag still set, and any later tick whose
recreation succeeds installs the newly created swapchain. -/
theorem C4_unsupported_dimensions_skips_frame (s : LoopState) (inp : TickInput)
    (hstale : s.recreate_swapchain = true)
    (hprev : s.previous_frame_end.isSome = true)
    (herr : inp.recreate = .unsupportedDimensions) :
    Triangle.redraw_tick s inp = (⟨.skipped, false, none⟩, s) ∧
    ∀ inp2 : TickInput, ∀ new_sc new_imgs,
      inp2.recreate = .ok new_sc new_imgs →
        ((Triangle.redraw_tick s inp2).2).swapchain = new_sc := by
  obtain ⟨rc, pfe, sc, fb⟩ := s
  cases pfe with
  | none => simp at hprev
  | some prev =>
    subst hstale
    refine ⟨by simp [Triangle.redraw_tick, herr], ?_⟩
    intro inp2 new_sc new_imgs h2
    obtain ⟨dims2, rec2, acq2, bok2, fl2⟩ := inp2
    cases h2
    simpa [Triangle.redraw_tick] using
      redraw_tick_acquire_swapchain_eq ⟨false, some prev, new_sc, new_imgs⟩
        ⟨dims2, .ok new_sc new_imgs, acq2, bok2, fl2⟩

/-- Witness for C4 at a concrete stale state and a tick reporting
unsupported dimensions. -/
theorem C4_unsupported_dimensions_skips_frame_witness :
    Triangle.redraw_tick Triangle.sample_stale_state
        ⟨(800, 600), .unsupportedDimensions, .ok 0 false, true, .ok⟩
      = (⟨.skipped, false, none⟩, Triangle.sample_stale_state) :=
  (C4_unsupported_dimensions_skips_frame Triangle.sample_stale_state
    ⟨(800, 600), .unsupportedDimensions, .ok 0 false, true, .ok⟩ rfl rfl rfl).1

open Triangle in
/-- C5: in the triangle render loop, a present/flush failure classified as
out-of-date sets the swapchain-stale flag, does not propagate as a fatal
error, and resets the completion-tracking future to the trivial
already-signaled `sync::now`; every other present/flush failure also does
not propagate as fatal, is observably logged, and likewise resets the
future. -/
theorem C5_flush_error_classification (s : LoopState) (inp : TickInput)
    (f : Future) (h : ((Triangle.redraw_tick s inp).1).submitted = some f) :
    (inp.flush = .outOfDate →
      ((Triangle.redraw_tick s inp).1).outcome = .completed ∧
      ((Triangle.redraw_tick s inp).1).logged = false ∧
      ((Triangle.redraw_tick s inp).2).recreate_swapchain = true ∧
      ((Triangle.redraw_tick s inp).2).previous_frame_end = some .now) ∧
    (inp.flush = .otherError →
      ((Triangle.redraw_tick s inp).1).outcome = .completed ∧
      ((Triangle.redraw_tick s inp).1).logged = true ∧
      ((Triangle.redraw_tick s inp).2).previous_frame_end = some .now) := by
  obtain ⟨s', heq, -⟩ := redraw_tick_submitted_via_acquire s inp f h
  rw [heq] at h ⊢
  exact redraw_tick_acquire_flush_classification s' inp f h

/-- Witness for C5 at a concrete tick whose flush reports out-of-date. -/
theorem C5_flush_error_classification_witness :
    ((Triangle.redraw_tick Triangle.initial_loop_state
        ⟨(800, 600), .ok 5 6, .ok 1 false, true, .outOfDate⟩).1).outcome
        = .completed ∧
    ((Triangle.redraw_tick Triangle.initial_loop_state
        ⟨(800, 600), .ok 5 6, .ok 1 false, true, .outOfDate⟩).1).logged = false ∧
    ((Triangle.redraw_tick Triangle.initial_loop_state
        ⟨(800, 600), .ok 5 6, .ok 1 false, true, .outOfDate⟩).2).recreate_swapchain
        = true ∧
    ((Triangle.redraw_tick Triangle.initial_loop_state
        ⟨(800, 600), .ok 5 6, .ok 1 false, true, .outOfDate⟩).2).previous_frame_end
        = some .now :=
  (C5_flush_error_classification Triangle.initial_loop_state
      ⟨(800, 600), .ok 5 6, .ok 1 false, true, .outOfDate⟩
      (.fenceFlush (.present (.execute (.join .now (.acquireSignal 1)) 0 1) 0 1))
      (by rfl)).1 rfl

open Triangle in
/-- Helper: the acquire-onwards stale handling: an out-of-date acquisition
skips the frame and marks the swapchain stale without panicking and
without touching the previous-frame future; a suboptimal acquisition marks
the swapchain stale and the frame goes on to command recording and
submission whenever command-buffer building succeeds. -/
theorem redraw_tick_acquire_stale_handling (s : LoopState) (inp : TickInput)
    (hprev : s.previous_frame_end.isSome = true) :
    (inp.acquire = .outOfDate →
      ((Triangle.redraw_tick_acquire s inp).1) = ⟨.skipped, false, none⟩ ∧
      ((Triangle.redraw_tick_acquire s inp).2).recreate_swapchain = true ∧
      ((Triangle.redraw_tick_acquire s inp).2).previous_frame_end
        = s.previous_frame_end) ∧
    ∀ n, inp.acquire = .ok n true →
      ((Triangle.redraw_tick_acquire s inp).2).recreate_swapchain = true ∧
      (inp.build_ok = true →
        ((Triangle.redraw_tick_acquire s inp).1).outcome = .completed ∧
        ∃ f, ((Triangle.redraw_tick_acquire s inp).1).submitted = some f) := by
  obtain ⟨rc, pfe, sc, fb⟩ := s
  cases pfe with
  | none => simp at hprev
  | some prev =>
    obtain ⟨dims, rec, acq, bok, fl⟩ := inp
    constructor
    · intro hacq
      cases hacq
      exact ⟨rfl, rfl, rfl⟩
    · intro n hacq
      cases hacq
      cases bok with
      | false => exact ⟨rfl, by simp⟩
      | true =>
        refine ⟨?_, fun _ => ?_⟩ <;> cases fl <;>
          simp [Triangle.redraw_tick_acquire]

open Triangle in
/-- C6: in the triangle render loop, on any tick that reaches image
acquisition (the swapchain was not stale, or its recreation succeeded),
when acquisition reports the swapchain as out-of-date or suboptimal the
loop marks the swapchain stale without failing: the out-of-date case skips
the frame (leaving the previous-frame future untouched), and the
suboptimal case continues rendering the current frame (reaching command
recording and submission whenever command-buffer building succeeds). -/
theorem C6_acquire_stale_handling (s : LoopState) (inp : TickInput)
    (hprev : s.previous_frame_end.isSome = true)
    (hreach : s.recreate_swapchain = false ∨
      ∃ nsc nimg, inp.recreate = .ok nsc nimg) :
    (inp.acquire = .outOfDate →
      ((Triangle.redraw_tick s inp).1) = ⟨.skipped, false, none⟩ ∧
      ((Triangle.redraw_tick s inp).2).recreate_swapchain = true ∧
      ((Triangle.redraw_tick s inp).2).previous_frame_end
        = s.previous_frame_end) ∧
    ∀ n, inp.acquire = .ok n true →
      ((Triangle.redraw_tick s inp).2).recreate_swapchain = true ∧
      (inp.build_ok = true →
        ((Triangle.redraw_tick s inp).1).outcome = .completed ∧
        ∃ f, ((Triangle.redraw_tick s inp).1).submitted = some f) := by
  obtain ⟨rc, pfe, sc, fb⟩ := s
  cases pfe with
  | none => simp at hprev
  | some prev =>
    cases rc with
    | false =>
      have heq : Triangle.redraw_tick ⟨false, some prev, sc, fb⟩ inp
          = Triangle.redraw_tick_acquire ⟨false, some prev, sc, fb⟩ inp := rfl
      rw [heq]
      exact redraw_tick_acquire_stale_handling ⟨false, some prev, sc, fb⟩ inp rfl
    | true =>
      rcases hreach with hrc | ⟨nsc, nimg, hrec⟩
      · exact absurd hrc (by simp)
      · have heq : Triangle.redraw_tick ⟨true, some prev, sc, fb⟩ inp
            = Triangle.redraw_tick_acquire ⟨false, some prev, nsc, nimg⟩ inp := by
          simp [Triangle.redraw_tick, hrec]
        rw [heq]
        exact redraw_tick_acquire_stale_handling
          ⟨false, some prev, nsc, nimg⟩ inp rfl

/-- Witness for C6 at a concrete tick whose acquisition reports the image
as suboptimal. -/
theorem C6_acquire_stale_handling_witness :
    ((Triangle.redraw_tick Triangle.initial_loop_state
        ⟨(800, 600), .ok 5 6, .ok 1 true, true, .ok⟩).2).recreate_swapchain
        = true ∧
    ((true : Bool) = true →
      ((Triangle.redraw_tick Triangle.initial_loop_state
          ⟨(800, 600), .ok 5 6, .ok 1 true, true, .ok⟩).1).outcome = .completed ∧
      ∃ f, ((Triangle.redraw_tick Triangle.initial_loop_state
          ⟨(800, 600), .ok 5 6, .ok 1 true, true, .ok⟩).1).submitted = some f) :=
  (C6_acquire_stale_handling Triangle.initial_loop_state
      ⟨(800, 600), .ok 5 6, .ok 1 true, true, .ok⟩ rfl (Or.inl rfl)).2 1 rfl

open Triangle in
/-- C7: every tick that reaches submission chains the frame's draw
submission after both the previous frame's completion future and the
current image's acquisition signal, and chains presentation of the image
after that draw submission. -/
theorem C7_submission_ordering (s : LoopState) (inp : TickInput)
    (f : Future) (h : ((Triangle.redraw_tick s inp).1).submitted = some f) :
    ∃ prev n sub fb sc,
      s.previous_frame_end = some prev ∧
      inp.acquire = .ok n sub ∧
      f = .fenceFlush (.present (.execute (.join prev (.acquireSignal n)) fb n) sc n) ∧
      prev ∈ (Future.execute (.join prev (.acquireSignal n)) fb n).ancestors ∧
      Future.acquireSignal n ∈
        (Future.execute (.join prev (.acquireSignal n)) fb n).ancestors ∧
      Future.execute (.join prev (.acquireSignal n)) fb n ∈
        (Future.present (.execute (.join prev (.acquireSignal n)) fb n) sc n).ancestors := by
  obtain ⟨s', heq, hpfe⟩ := redraw_tick_submitted_via_acquire s inp f h
  rw [heq] at h
  obtain ⟨prev, n, sub, hprev, hacq, hf⟩ :=
    redraw_tick_acquire_submitted_shape s' inp f h
  refine ⟨prev, n, sub, s'.framebuffers, s'.swapchain,
    hpfe.symm.trans hprev, hacq, hf, ?_, ?_, ?_⟩ <;> simp [Future.ancestors]

/-- Witness for C7 at a concrete tick reaching submission. -/
theorem C7_submission_ordering_witness :
    ∃ prev n sub fb sc,
      Triangle.initial_loop_state.previous_frame_end = some prev ∧
      (⟨(800, 600), .ok 5 6, .ok 1 false, true, .ok⟩ : Triangle.TickInput).acquire
        = .ok n sub ∧
      (Triangle.Future.fenceFlush
          (.present (.execute (.join .now (.acquireSignal 1)) 0 1) 0 1))
        = .fenceFlush (.present (.execute (.join prev (.acquireSignal n)) fb n) sc n) ∧
      prev ∈ (Triangle.Future.execute (.join prev (.acquireSignal n)) fb n).ancestors ∧
      Triangle.Future.acquireSignal n ∈
        (Triangle.Future.execute (.join prev (.acquireSignal n)) fb n).ancestors ∧
      Triangle.Future.execute (.join prev (.acquireSignal n)) fb n ∈
        (Triangle.Future.present
          (.execute (.join prev (.acquireSignal n)) fb n) sc n).ancestors :=
  C7_submission_ordering Triangle.initial_loop_state
    ⟨(800, 600), .ok 5 6, .ok 1 false, true, .ok⟩
    (.fenceFlush (.present (.execute (.join .now (.acquireSignal 1)) 0 1) 0 1))
    (by rfl)

open Triangle in
/-- Helper: the acquire-onwards part of a tick preserves "the previous
frame future is present", and its only previous-frame-unwrap panic site is
unreachable from such states. -/
theorem redraw_tick_acquire_prev_some (s : LoopState) (inp : TickInput)
    (hprev : s.previous_frame_end.isSome = true) :
    ((Triangle.redraw_tick_acquire s inp).2).previous_frame_end.isSome = true ∧
    ∀ site, ((Triangle.redraw_tick_acquire s inp).1).outcome = .panicked site →
      site ≠ .prevFrameUnwrap := by
  obtain ⟨rc, pfe, sc, fb⟩ := s
  cases pfe with
  | none => simp at hprev
  | some prev =>
    obtain ⟨dims, rec, acq, bok, fl⟩ := inp
    cases acq with
    | outOfDate =>
      refine ⟨rfl, ?_⟩
      intro site hsite
      simp [Triangle.redraw_tick_acquire] at hsite
    | otherError =>
      refine ⟨rfl, ?_⟩
      intro site hsite
      simp [Triangle.redraw_tick_acquire] at hsite
      subst hsite
      decide
    | ok n sub =>
      constructor
      · cases sub <;> cases bok <;> cases fl <;>
          simp [Triangle.redraw_tick_acquire]
      · intro site hsite
        cases sub <;> cases bok <;> cases fl <;>
          simp [Triangle.redraw_tick_acquire] at hsite <;>
          (subst hsite; decide)

open Triangle in
/-- C10: the render loop maintains the invariant that
`previous_frame_end` is `Some(_)` at the start of every redraw tick: it is
initialized to `Some` before the loop, and every branch of the flush-result
match stores a new `Some` value after the `take()`, so the two unwraps on
`previous_frame_end` never fail in any reachable loop state. -/
theorem C10_previous_frame_end_invariant :
    Triangle.initial_loop_state.previous_frame_end.isSome = true ∧
    ∀ (s : LoopState) (inp : TickInput), s.previous_frame_end.isSome = true →
      ((Triangle.redraw_tick s inp).2).previous_frame_end.isSome = true ∧
      ∀ site, ((Triangle.redraw_tick s inp).1).outcome = .panicked site →
        site ≠ .prevFrameUnwrap := by
  refine ⟨rfl, ?_⟩
  intro s inp hprev
  obtain ⟨rc, pfe, sc, fb⟩ := s
  cases pfe with
  | none => simp at hprev
  | some prev =>
    cases rc with
    | false =>
      exact redraw_tick_acquire_prev_some ⟨false, some prev, sc, fb⟩ inp rfl
    | true =>
      cases hrec : inp.recreate with
      | unsupportedDimensions =>
        constructor
        · simp [Triangle.redraw_tick, hrec]
        · intro site hsite
          simp [Triangle.redraw_tick, hrec] at hsite
      | otherError =>
        constructor
        · simp [Triangle.redraw_tick, hrec]
        · intro site hsite
          simp [Triangle.redraw_tick, hrec] at hsite
          subst hsite
          decide
      | ok nsc nimg =>
        have := redraw_tick_acquire_prev_some ⟨false, some prev, nsc, nimg⟩ inp rfl
        simpa [Triangle.redraw_tick, hrec] using this

/-- Witness for C10 at a concrete state and tick input. -/
theorem C10_previous_frame_end_invariant_witness :
    ((Triangle.redraw_tick Triangle.initial_loop_state
        Triangle.sample_ok_input).2).previous_frame_end.isSome = true ∧
    ∀ site, ((Triangle.redraw_tick Triangle.initial_loop_state
        Triangle.sample_ok_input).1).outcome = .panicked site →
      site ≠ .prevFrameUnwrap :=
  C10_previous_frame_end_invariant.2 Triangle.initial_loop_state
    Triangle.sample_ok_input rfl

/-- Helper: one step of the orbit. -/
theorem orbit_succ (c : ℚ × ℚ) (n : Nat) :
    Mandelbrot.orbit c (n + 1) = Mandelbrot.mandel_step c (Mandelbrot.orbit c n) := rfl

/-- Helper: one increment of the f32 counter sequence. -/
theorem counter_f32_succ (n : Nat) :
    Mandelbrot.counter_f32 (n + 1)
      = Mandelbrot.f32_add_step (Mandelbrot.counter_f32 n) := rfl

/-- Helper: unfolding equation for `mandel_count`, stated at an abstract
parameter so later uses can rewrite with it propositionally. -/
theorem mandel_count_eq (c : ℚ × ℚ) :
    Mandelbrot.mandel_count c = (Mandelbrot.mandel_shader_loop c).2 := rfl

/-- Helper: unfolding equation for `mandel_i`, stated at an abstract
parameter so later uses can rewrite with it propositionally. -/
theorem mandel_i_eq (c : ℚ × ℚ) :
    Mandelbrot.mandel_i c = (Mandelbrot.mandel_shader_loop c).1 := rfl

/-- Helper: the constant `c005_f32` is an IEEE-754 binary32 value (a
24-bit significand) and is the f32 nearest to the source literal `0.005`:
its distance to 1/200 is below half an ulp (`2 ⁻³²` at this magnitude). -/
theorem c005_f32_correct :
    2 ^ 23 ≤ Mandelbrot.c005_f32 ∧ Mandelbrot.c005_f32 < 2 ^ 24 ∧
    |(Mandelbrot.c005_f32 : ℚ) / 2 ^ 31 - 0.005| ≤ 1 / 2 ^ 32 := by
  refine ⟨by norm_num [Mandelbrot.c005_f32], by norm_num [Mandelbrot.c005_f32], ?_⟩
  rw [abs_le]
  constructor <;> norm_num [Mandelbrot.c005_f32]

set_option maxRecDepth 10000 in
/-- Helper: the two concrete facts that pin the loop's iteration count:
the f32 counter is still strictly below `1.0` (numerator `2 ^ 31`) after
every one of its first 200 increments — this is where f32 departs from
exact arithmetic, whose counter would reach exactly 1 after 200 steps —
and is at least `1.0` after the 201st. -/
theorem counter_f32_bounds :
    (∀ k, k < 201 → Mandelbrot.counter_f32 k < 2 ^ 31) ∧
    2 ^ 31 ≤ Mandelbrot.counter_f32 201 := by
  decide

open Mandelbrot in
/-- Helper: the loop invariant of the shader's escape-time loop.  Started
at the k-th orbit point with the k-th f32 counter value and fuel
`201 - k`, the loop performs at most `fuel` further iterations, never runs
past an escaped orbit point, and returns the f32 counter value at the
escaping step (early exit) or at the final, `≥ 1.0` counter position
(normal exit). -/
theorem mandel_loop_invariant (c : ℚ × ℚ) (fuel : Nat) :
    ∀ k, fuel + k = 201 →
      ((Mandelbrot.mandel_loop c (orbit c k) (counter_f32 k) fuel).2 ≤ fuel) ∧
      (∀ m, k ≤ m →
        m + 1 < k + (Mandelbrot.mandel_loop c (orbit c k) (counter_f32 k) fuel).2 →
        len_sq (orbit c (m + 1)) ≤ 16) ∧
      ((∃ m : Nat,
          (Mandelbrot.mandel_loop c (orbit c k) (counter_f32 k) fuel).1
            = (counter_f32 m : ℚ) / 2 ^ 31 ∧
          m + 1 = k + (Mandelbrot.mandel_loop c (orbit c k) (counter_f32 k) fuel).2 ∧
          16 < len_sq (orbit c (m + 1))) ∨
        ((Mandelbrot.mandel_loop c (orbit c k) (counter_f32 k) fuel).1
            = (counter_f32
                (k + (Mandelbrot.mandel_loop c (orbit c k) (counter_f32 k) fuel).2) : ℚ)
              / 2 ^ 31 ∧
          2 ^ 31 ≤ counter_f32
            (k + (Mandelbrot.mandel_loop c (orbit c k) (counter_f32 k) fuel).2))) := by
  induction fuel with
  | zero =>
    intro k hk
    have hk201 : k = 201 := by omega
    subst hk201
    refine ⟨le_refl _, ?_, Or.inr ⟨by norm_num [Mandelbrot.mandel_loop], ?_⟩⟩
    · intro m hm hm2
      simp [Mandelbrot.mandel_loop] at hm2
      omega
    · simpa [Mandelbrot.mandel_loop] using counter_f32_bounds.2
  | succ fuel ih =>
    intro k hk
    have hklt : k < 201 := by omega
    have hcond : counter_f32 k < 2 ^ 31 := counter_f32_bounds.1 k hklt
    simp only [Mandelbrot.mandel_loop, ← orbit_succ, ← counter_f32_succ]
    rw [if_pos hcond]
    by_cases h16 : (16 : ℚ) < len_sq (orbit c (k + 1))
    · rw [if_pos h16]
      refine ⟨by omega, ?_, Or.inl ⟨k, rfl, rfl, h16⟩⟩
      intro m hm hm2
      omega
    · rw [if_neg h16]
      obtain ⟨ih1, ih2, ih3⟩ := ih (k + 1) (by omega)
      refine ⟨by omega, ?_, ?_⟩
      · intro m hm hm2
        rcases Nat.eq_or_lt_of_le hm with hmk | hmk
        · subst hmk
          exact le_of_not_lt h16
        · exact ih2 m (by omega) (by omega)
      · rcases ih3 with ⟨m, hm1, hm2, hm3⟩ | ⟨hv, hc2⟩
        · exact Or.inl ⟨m, hm1, by omega, hm3⟩
        · have hidx : k + ((Mandelbrot.mandel_loop c (orbit c (k + 1))
              (counter_f32 (k + 1)) fuel).2 + 1)
              = k + 1 + (Mandelbrot.mandel_loop c (orbit c (k + 1))
                (counter_f32 (k + 1)) fuel).2 := by omega
          refine Or.inr ⟨?_, ?_⟩
          · rw [hv, hidx]
          · rw [hidx]
            exact hc2

/-- Helper: `len_sq` is a sum of squares, hence nonnegative. -/
theorem len_sq_nonneg (z : ℚ × ℚ) : 0 ≤ Mandelbrot.len_sq z := by
  have h1 := mul_self_nonneg z.1
  have h2 := mul_self_nonneg z.2
  simp only [Mandelbrot.len_sq]
  linarith

/-- Helper: growth bound for one recurrence step, from the identity
|z²| = |z|² and the inequality (x + a)² ≤ 2x² + 2a². -/
theorem len_sq_step_le (c z : ℚ × ℚ) :
    Mandelbrot.len_sq (Mandelbrot.mandel_step c z)
      ≤ 2 * Mandelbrot.len_sq z ^ 2 + 2 * Mandelbrot.len_sq c := by
  obtain ⟨z1, z2⟩ := z
  obtain ⟨c1, c2⟩ := c
  simp only [Mandelbrot.len_sq, Mandelbrot.mandel_step]
  nlinarith [sq_nonneg (z1 * z1 - z2 * z2 - c1), sq_nonneg (z2 * z1 + z1 * z2 - c2)]

/-- Helper: the orbit of the pixel parameter (-1/1024, -1/1024) stays
inside the disk of squared radius 1/100, by induction with the step
bound: 2 · (1/100)² + 2 · (1/524288) ≤ 1/100. -/
theorem orbit_sample_pixel_bounded (n : Nat) :
    Mandelbrot.len_sq (Mandelbrot.orbit Mandelbrot.sample_pixel_c n) ≤ 1 / 100 := by
  induction n with
  | zero => norm_num [Mandelbrot.orbit, Mandelbrot.len_sq]
  | succ n ih =>
    rw [orbit_succ]
    have hstep := len_sq_step_le Mandelbrot.sample_pixel_c
      (Mandelbrot.orbit Mandelbrot.sample_pixel_c n)
    have hnn := len_sq_nonneg (Mandelbrot.orbit Mandelbrot.sample_pixel_c n)
    have hc : Mandelbrot.len_sq Mandelbrot.sample_pixel_c = 1 / 524288 := by
      norm_num [Mandelbrot.len_sq, Mandelbrot.sample_pixel_c]
    rw [hc] at hstep
    nlinarith [ih, hstep, hnn]

open Mandelbrot in
/-- C8, counterexample: at the actual output pixel (1023, 511) of the
1024×1024 dispatch the orbit never escapes, and the shader's loop body
executes 201 times — not at most 200: the f32 counter 0.005 falls short of
1/200, so after 200 increments the counter is ≈ 0.9999992 < 1.0 and the
`i < 1.0` test admits one extra iteration. -/
theorem C8_shader_201_iterations_counterexample :
    Mandelbrot.mandel_count (pixel_c (1023, 511) (1024, 1024)) = 201 := by
  have hpc : pixel_c (1023, 511) (1024, 1024) = sample_pixel_c := by
    norm_num [Mandelbrot.pixel_c, Mandelbrot.norm_coordinates,
      Mandelbrot.sample_pixel_c]
  rw [hpc]
  have h := mandel_loop_invariant sample_pixel_c 201 0 rfl
  have hb : Mandelbrot.mandel_loop sample_pixel_c (orbit sample_pixel_c 0)
      (counter_f32 0) 201 = Mandelbrot.mandel_shader_loop sample_pixel_c := rfl
  rw [hb] at h
  obtain ⟨h1, -, h3⟩ := h
  rw [mandel_count_eq]
  rcases h3 with ⟨m, -, -, hm3⟩ | ⟨-, hc2⟩
  · exact absurd hm3 (not_lt.mpr
      (le_trans (orbit_sample_pixel_bounded (m + 1)) (by norm_num)))
  · by_contra hne
    have hlt : (Mandelbrot.mandel_shader_loop sample_pixel_c).2 < 201 :=
      lt_of_le_of_ne h1 hne
    have hsm := counter_f32_bounds.1
      (0 + (Mandelbrot.mandel_shader_loop sample_pixel_c).2) (by omega)
    omega

open Mandelbrot in
/-- C8, amended: the Mandelbrot compute shader performs, per output pixel,
at most 201 iterations of the complex recurrence z ← z² + c — the f32
counter literal 0.005 is slightly below 1/200, so the `i < 1.0` test still
succeeds after 200 increments and admits one extra iteration — exits the
loop as soon as |z| > 4 (encoded without square roots as |z|² > 16), and
writes the f32 iteration counter (the value of `i`, an f32 sum of 0.005s)
as a greyscale color with equal red, green and blue channels and alpha 1. -/
theorem C8_shader_escape_time :
    (∀ c : ℚ × ℚ,
      mandel_count c ≤ 201 ∧
      (∀ m, m + 1 < mandel_count c → len_sq (orbit c (m + 1)) ≤ 16) ∧
      ((∃ m : Nat, mandel_i c = (counter_f32 m : ℚ) / 2 ^ 31 ∧
          m + 1 = mandel_count c ∧ 16 < len_sq (orbit c (m + 1))) ∨
        (mandel_i c = (counter_f32 (mandel_count c) : ℚ) / 2 ^ 31 ∧
          2 ^ 31 ≤ counter_f32 (mandel_count c)))) ∧
    ∀ gid size : ℚ × ℚ,
      (shader_main gid size).r = (shader_main gid size).g ∧
      (shader_main gid size).g = (shader_main gid size).b ∧
      (shader_main gid size).a = 1 ∧
      (shader_main gid size).r = mandel_i (pixel_c gid size) := by
  constructor
  · intro c
    have h := mandel_loop_invariant c 201 0 rfl
    have hb : Mandelbrot.mandel_loop c (Mandelbrot.orbit c 0)
        (Mandelbrot.counter_f32 0) 201 = Mandelbrot.mandel_shader_loop c := rfl
    rw [hb] at h
    obtain ⟨h1, h2, h3⟩ := h
    simp only [mandel_count_eq, mandel_i_eq]
    refine ⟨h1, ?_, ?_⟩
    · intro m hm
      exact h2 m (Nat.zero_le m) (by omega)
    · rcases h3 with ⟨m, hm1, hm2, hm3⟩ | ⟨hv, hc2⟩
      · exact Or.inl ⟨m, hm1, by omega, hm3⟩
      · exact Or.inr ⟨by simpa using hv, by simpa using hc2⟩
  · intro gid size
    exact ⟨rfl, rfl, rfl, rfl⟩

/-- Witness for C8: for the pixel parameter c = (3, 0) the shader performs
at most 201 iterations. -/
theorem C8_shader_escape_time_witness :
    Mandelbrot.mandel_count (3, 0) ≤ 201 :=
  (C8_shader_escape_time.1 (3, 0)).1
